import Mathlib

/-!
Shallow embedding of the block-device reconciliation controller of
harvester/node-disk-manager (pkg/controller/blockdevice/controller.go).
External collaborators (BlockInfo, FsOps, the node and block-device stores,
the semaphore channel) are modelled as explicit oracle inputs; every
controller function becomes a pure Lean function from the device, the
oracle environment and the shared caches to a result record that carries
the mutated device, the effect counters (store writes, re-enqueues,
subprocess calls) and the returned error.
-/

namespace NDM

/-- An error value as the Go code observes it: its message plus the two
classifications the controller queries (apierrors.IsNotFound and
utils.IsFSCorrupted). -/
structure GoErr where
  msg : String
  notFound : Bool
  fsCorrupted : Bool
deriving DecidableEq

/-- valueExists from controller.go: a string identifier is present when it is
neither empty nor the ghw sentinel "unknown". -/
def valueExists (v : String) : Bool :=
  v ≠ "" && v ≠ "unknown"

/-- block.FileSystemInfo as used by the controller. -/
structure FileSystemInfo where
  mountPoint : String
  fsType : String
  isReadOnly : Bool
deriving DecidableEq

/-- Status.DeviceStatus.FileSystem of a BlockDevice. -/
structure FilesystemStatus where
  mountPoint : String
  fsType : String
  isReadOnly : Bool
  corrupted : Bool
  lastFormattedAt : Option Nat
deriving DecidableEq

/-- Status.DeviceStatus.Details. -/
structure DeviceDetails where
  deviceType : String
  wwn : String
  uuid : String
  ptUUID : String
  partUUID : String
  storageController : String
deriving DecidableEq

/-- Status.DeviceStatus. -/
structure DeviceStatus where
  details : DeviceDetails
  fileSystem : FilesystemStatus
  partitioned : Bool
  devPath : String
deriving DecidableEq

/-- A named condition (DeviceFormatting / DeviceMounted / DiskAddedToNode):
a boolean status, the recorded error string and a human message. -/
structure Condition where
  statusTrue : Bool
  errText : String
  message : String
deriving DecidableEq

/-- Cond.SetError obj "" err: record the error text (empty when err is nil). -/
def Condition.setErr (c : Condition) (e : Option GoErr) : Condition :=
  { c with errText := match e with | some g => g.msg | none => "" }

/-- Cond.SetStatusBool. -/
def Condition.setStatusBool (c : Condition) (b : Bool) : Condition :=
  { c with statusTrue := b }

/-- Cond.Message. -/
def Condition.setMessage (c : Condition) (m : String) : Condition :=
  { c with message := m }

/-- diskv1.ProvisionPhase values used by the controller. -/
inductive ProvisionPhase where
  | unprovisioned
  | provisioned
  | unprovisioning
deriving DecidableEq

/-- diskv1.BlockDeviceState. -/
inductive BlockDeviceState where
  | active
  | inactive
deriving DecidableEq

/-- Spec.FileSystem of a BlockDevice. -/
structure FileSystemSpec where
  mountPoint : String
  forceFormatted : Bool
  repaired : Bool
  provisioned : Bool
deriving DecidableEq

/-- Spec of a BlockDevice. -/
structure BlockDeviceSpec where
  nodeName : String
  fileSystem : FileSystemSpec
  tags : List String
deriving DecidableEq

/-- Status of a BlockDevice, with the three conditions the controller sets. -/
structure BlockDeviceStatus where
  state : BlockDeviceState
  deviceStatus : DeviceStatus
  provisionPhase : ProvisionPhase
  deviceFormatting : Condition
  deviceMounted : Condition
  diskAddedToNode : Condition
deriving DecidableEq

/-- The reconciled BlockDevice resource. -/
structure BlockDevice where
  name : String
  deletionTimestamp : Option Nat
  spec : BlockDeviceSpec
  status : BlockDeviceStatus
deriving DecidableEq

/-- longhornv1.DiskSpec: one entry of the orchestrator node's Spec.Disks.
Tags is optional because a Go slice may be nil and the code tests that. -/
structure DiskSpec where
  path : String
  allowScheduling : Bool
  evictionRequested : Bool
  storageReserved : Int
  tags : Option (List String)
deriving DecidableEq

/-- One entry of the orchestrator node's Status.DiskStatus. -/
structure DiskStatusEntry where
  scheduledReplica : List (String × Int)
deriving DecidableEq

/-- The orchestrator (longhorn) node resource as the controller uses it. -/
structure LonghornNode where
  name : String
  disks : List (String × DiskSpec)
  diskStatus : List (String × DiskStatusEntry)
deriving DecidableEq

/-- Result of an external fetch: the value or the error returned. -/
inductive Fetched (α : Type) where
  | ok (v : α)
  | fail (e : GoErr)
deriving DecidableEq

/-- Go map lookup over an association list. -/
def alistLookup {α : Type} : List (String × α) → String → Option α
  | [], _ => none
  | (k, v) :: rest, key => if k = key then some v else alistLookup rest key

/-- Go map assignment over an association list. -/
def alistInsert {α : Type} (l : List (String × α)) (key : String) (v : α) :
    List (String × α) :=
  (key, v) :: l.filter (fun p => p.1 ≠ key)

/-- Go delete over an association list. -/
def alistErase {α : Type} (l : List (String × α)) (key : String) :
    List (String × α) :=
  l.filter (fun p => p.1 ≠ key)

/-- The process-wide DiskTags cache content: device name to tag list. -/
abbrev TagCache := List (String × List String)

/-- DiskTags.GetDiskTags: the stored list, nil (empty) when absent. -/
def getDiskTags (cache : TagCache) (dev : String) : List String :=
  (alistLookup cache dev).getD []

/-- DiskTags.DevExist. -/
def devExist (cache : TagCache) (dev : String) : Bool :=
  (alistLookup cache dev).isSome

/-- DiskTags.UpdateDiskTags. -/
def updateDiskTags (cache : TagCache) (dev : String) (tags : List String) :
    TagCache :=
  alistInsert cache dev tags

/-- NeedMountUpdateNoOp bit flag. -/
def NeedMountUpdateNoOp : Nat := 1

/-- NeedMountUpdateMount bit flag. -/
def NeedMountUpdateMount : Nat := 2

/-- NeedMountUpdateUnmount bit flag. -/
def NeedMountUpdateUnmount : Nat := 4

/-- NeedMountUpdateOP.Has: bitwise test. -/
def hasOp (f flag : Nat) : Bool :=
  f.land flag ≠ 0

/-- extraDiskMountPoint: the deprecated Spec.FileSystem.MountPoint when
non-empty, else the conventional per-device path. -/
def extraDiskMountPoint (bd : BlockDevice) : String :=
  if bd.spec.fileSystem.mountPoint ≠ "" then bd.spec.fileSystem.mountPoint
  else "/var/lib/harvester/extra-disks/" ++ bd.name

/-- needUpdateMountPoint from controller.go. -/
def needUpdateMountPoint (bd : BlockDevice) (filesystem : Option FileSystemInfo) :
    Nat :=
  match filesystem with
  | none => NeedMountUpdateNoOp
  | some fs =>
    if bd.spec.fileSystem.provisioned then
      if fs.mountPoint = "" then NeedMountUpdateMount
      else if fs.mountPoint = extraDiskMountPoint bd then NeedMountUpdateNoOp
      else NeedMountUpdateUnmount ||| NeedMountUpdateMount
    else
      if fs.mountPoint ≠ "" then NeedMountUpdateUnmount
      else NeedMountUpdateNoOp

/-- The four outcomes of the spec's mount-plan decision function. -/
inductive MountPlan where
  | noOp
  | mount
  | unmount
  | unmountThenMount
deriving DecidableEq

/-- The numeric encoding of a plan in the code's bit-flag representation. -/
def MountPlan.encode : MountPlan → Nat
  | .noOp => 1
  | .mount => 2
  | .unmount => 4
  | .unmountThenMount => 6

/-- Modelled from the spec: the pure decision function Plan(bd, fsObserved) as
section 4.3 of the spec words it, to be compared with needUpdateMountPoint. -/
def mountPlanSpec (bd : BlockDevice) (fsObserved : Option FileSystemInfo) :
    MountPlan :=
  match fsObserved with
  | none => .noOp
  | some fs =>
    if bd.spec.fileSystem.provisioned then
      if fs.mountPoint = "" then .mount
      else if fs.mountPoint = extraDiskMountPoint bd then .noOp
      else .unmountThenMount
    else
      if fs.mountPoint ≠ "" then .unmount
      else .noOp

/-- Modelled from the spec: utils.IsSupportedFileSystem is not under src; the
spec admits a single supported filesystem type, FSX = ext4. -/
def isSupportedFileSystem (t : String) : Bool :=
  t = "ext4"

/-- Modelled from the spec: utils.DiskRemoveTag is not under src; the spec
describes it as a fixed sentinel string constant, for example "remove". -/
def DiskRemoveTag : String := "remove"

/-- utils.IsFSCorrupted: the classification the error value carries. -/
def isFSCorrupted (e : GoErr) : Bool :=
  e.fsCorrupted

/-- External contract of gocommon.SliceDedupe, accumulator form: keep the
first occurrence of every element. -/
def sliceDedupeAux (seen : List String) : List String → List String
  | [] => []
  | x :: xs =>
    if seen.contains x then sliceDedupeAux seen xs
    else x :: sliceDedupeAux (x :: seen) xs

/-- External contract of gocommon.SliceDedupe: duplicates removed, first
occurrences kept in order. -/
def sliceDedupe (xs : List String) : List String :=
  sliceDedupeAux [] xs

/-- External contract of gocommon.SliceContentCmp: the two lists hold the same
elements regardless of order and multiplicity. -/
def sliceContentCmp (a b : List String) : Bool :=
  a.all (fun x => b.contains x) && b.all (fun x => a.contains x)

/-- updateDeviceFileSystem from controller.go: refresh the filesystem part of
the device status from the re-queried observation (passed as the oracle value
the BlockInfo call would return); a corrupted device is left untouched. -/
def updateDeviceFileSystem (device : BlockDevice)
    (fsInfo : Option FileSystemInfo) : BlockDevice × Option GoErr :=
  if device.status.deviceStatus.fileSystem.corrupted then (device, none)
  else
    match fsInfo with
    | none => (device, some ⟨"failed to get filesystem info from devPath", false, false⟩)
    | some fs =>
      if fs.mountPoint ≠ "" && fs.fsType ≠ "" && !isSupportedFileSystem fs.fsType then
        (device, some ⟨"unsupported filesystem type " ++ fs.fsType, false, false⟩)
      else
        ({ device with
            status.deviceStatus.fileSystem.mountPoint := fs.mountPoint
            status.deviceStatus.fileSystem.fsType := fs.fsType
            status.deviceStatus.fileSystem.isReadOnly := fs.isReadOnly }, none)

/-- Oracle results of the external calls updateDeviceMount makes: the umount
and mount subprocesses and the filesystem re-query. -/
structure MountEnv where
  umountResult : Option GoErr
  mountResult : Option GoErr
  fsAfter : Option FileSystemInfo
deriving DecidableEq

/-- What one run of updateDeviceMount produced: the mutated device, how many
umount and mount subprocess calls were made, and the returned error. -/
structure MountResult where
  device : BlockDevice
  umountCalls : Nat
  mountCalls : Nat
  err : Option GoErr
deriving DecidableEq

/-- The tail of updateDeviceMount after the mount decision: clear the
corruption flag, then refresh the filesystem observation. -/
def mountFinish (env : MountEnv) (device : BlockDevice) (uc mc : Nat) :
    MountResult :=
  let d := { device with status.deviceStatus.fileSystem.corrupted := false }
  let r := updateDeviceFileSystem d env.fsAfter
  ⟨r.1, uc, mc, r.2⟩

/-- updateDeviceMount from controller.go: reject partitioned devices, apply
the unmount and mount parts of the plan (results from the oracle), record the
corruption classification on mount failure, and on success clear the
corruption flag and refresh the filesystem status. -/
def updateDeviceMount (env : MountEnv) (device : BlockDevice) (devPath : String)
    (filesystem : Option FileSystemInfo) (needMountUpdate : Nat) : MountResult :=
  if device.status.deviceStatus.partitioned then
    ⟨device, 0, 0,
      some ⟨"partitioned device is not supported, please use raw block device instead",
        false, false⟩⟩
  else
    let unmountStep : BlockDevice × Nat × Option GoErr :=
      if hasOp needMountUpdate NeedMountUpdateUnmount then
        match env.umountResult with
        | some e => (device, 1, some e)
        | none =>
          ({ device with
              status.deviceMounted := ((device.status.deviceMounted.setErr none).setStatusBool false) },
            1, none)
      else (device, 0, none)
    match unmountStep with
    | (d, uc, some e) => ⟨d, uc, 0, some e⟩
    | (d, uc, none) =>
      if hasOp needMountUpdate NeedMountUpdateMount then
        match env.mountResult with
        | some e =>
          if isFSCorrupted e then
            ⟨{ d with
                status.deviceStatus.fileSystem.corrupted := true
                spec.fileSystem.repaired := false }, uc, 1, some e⟩
          else ⟨d, uc, 1, some e⟩
        | none =>
          let d2 := { d with
            status.deviceMounted := ((d.status.deviceMounted.setErr none).setStatusBool true) }
          mountFinish env d2 uc 1
      else mountFinish env d uc 0

/-- Oracle results of the external calls forceFormat makes, plus the state of
the format-gate semaphore (its channel length and capacity) and the clock. -/
structure FormatEnv where
  semCount : Nat
  semCap : Nat
  umountResult : Option GoErr
  mkfsResult : Option GoErr
  fsAfter : Option FileSystemInfo
  now : Nat
deriving DecidableEq

/-- What one run of forceFormat produced: the mutated device, the semaphore
channel length on exit, and the effect counters. -/
structure FormatResult where
  device : BlockDevice
  semCount : Nat
  enqueues : Nat
  umountCalls : Nat
  mkfsCalls : Nat
  err : Option GoErr
deriving DecidableEq

/-- semaphore.acquire: non-blocking channel send, succeeds only below
capacity. -/
def semAcquire (count cap : Nat) : Bool × Nat :=
  if count < cap then (true, count + 1) else (false, count)

/-- semaphore.release: non-blocking channel receive. -/
def semRelease (count : Nat) : Nat :=
  count - 1

/-- The UUID-to-reuse computation of forceFormat: when the device lacks a WWN,
the first present of Details.UUID and Details.PtUUID, reset to empty when
neither is present; with a WWN the empty string. -/
def formatUUID (device : BlockDevice) : String :=
  if !valueExists device.status.deviceStatus.details.wwn then
    let u1 := device.status.deviceStatus.details.uuid
    let u2 := if valueExists u1 then u1 else device.status.deviceStatus.details.ptUUID
    if valueExists u2 then u2 else ""
  else ""

/-- The part of forceFormat after the unmount step: run mkfs with the reused
UUID, write the UUID back when non-empty, refresh the filesystem status, and
on success record the formatting condition, timestamp and cleared flags.
`rel` is the semaphore count after the deferred release and `uc` the number of
umount calls already made. -/
def forceFormatCore (env : FormatEnv) (device : BlockDevice) (uc rel : Nat) :
    FormatResult :=
  let uuid := formatUUID device
  match env.mkfsResult with
  | some e => ⟨device, rel, 0, uc, 1, some e⟩
  | none =>
    let d1 :=
      if uuid ≠ "" then { device with status.deviceStatus.details.uuid := uuid }
      else device
    match updateDeviceFileSystem d1 env.fsAfter with
    | (d2, some e) => ⟨d2, rel, 0, uc, 1, some e⟩
    | (d2, none) =>
      let d3 := { d2 with
        status.deviceFormatting :=
          (((d2.status.deviceFormatting.setErr none).setStatusBool false).setMessage
            "Done device ext4 filesystem formatting")
        status.deviceStatus.fileSystem.lastFormattedAt := some env.now
        status.deviceStatus.partitioned := false
        status.deviceStatus.fileSystem.corrupted := false }
      ⟨d3, rel, 0, uc, 1, none⟩

/-- forceFormat from controller.go: try the format gate (re-enqueue and return
nil on a miss), unmount when the observation shows a mount point, then format.
Every exit after a successful acquire carries the deferred release. -/
def forceFormat (env : FormatEnv) (device : BlockDevice) (devPath : String)
    (filesystem : Option FileSystemInfo) : FormatResult :=
  match semAcquire env.semCount env.semCap with
  | (false, c) => ⟨device, c, 1, 0, 0, none⟩
  | (true, c) =>
    let rel := semRelease c
    if (match filesystem with | some fs => fs.mountPoint != "" | none => false) then
      match env.umountResult with
      | some e => ⟨device, rel, 0, 1, 0, some e⟩
      | none => forceFormatCore env device 1 rel
    else forceFormatCore env device 0 rel

/-- Oracle results for updateDeviceStatus: the freshly built status a
GetDiskBlockDevice / GetPartitionBlockDevice call would yield, the possible
parent-path error for partitions, and the scanner's auto-provision verdict. -/
structure StatusEnv where
  diskStatusFromOS : DeviceStatus
  partParentErr : Option GoErr
  partStatusFromOS : DeviceStatus
  needAutoProvision : Bool
deriving DecidableEq

/-- What one run of updateDeviceStatus produced. -/
structure StatusResult where
  device : BlockDevice
  err : Option GoErr
deriving DecidableEq

/-- The straight-line tail of updateDeviceStatus after the device-type
switch: preserve a non-nil LastFormattedAt, overwrite DevPath, assign the
status only when it differs, and set the auto-provision spec flags. -/
def applyNewStatus (device : BlockDevice) (devPath : String)
    (newStatus0 : DeviceStatus) (needAutoProvision : Bool) : BlockDevice :=
  let lastFormatted := device.status.deviceStatus.fileSystem.lastFormattedAt
  let newStatus1 :=
    if lastFormatted.isSome && newStatus0.fileSystem.lastFormattedAt.isNone then
      { newStatus0 with fileSystem.lastFormattedAt := lastFormatted }
    else newStatus0
  let newStatus2 := { newStatus1 with devPath := devPath }
  let d1 :=
    if device.status.deviceStatus ≠ newStatus2 then
      { device with status.deviceStatus := newStatus2 }
    else device
  if needAutoProvision then
    { d1 with
        spec.fileSystem.forceFormatted := true
        spec.fileSystem.provisioned := true }
  else d1

/-- updateDeviceStatus from controller.go: rebuild the device status from the
OS observation for disks and partitions, preserve a non-nil LastFormattedAt,
overwrite DevPath, write the status back only when it changed, and set the
auto-provision spec flags when the scanner asks for them. -/
def updateDeviceStatus (env : StatusEnv) (device : BlockDevice)
    (devPath : String) : StatusResult :=
  let fetched : Fetched (DeviceStatus × Bool) :=
    if device.status.deviceStatus.details.deviceType = "disk" then
      .ok (env.diskStatusFromOS, env.needAutoProvision)
    else if device.status.deviceStatus.details.deviceType = "part" then
      match env.partParentErr with
      | some e => .fail ⟨"failed to get parent devPath: " ++ e.msg, false, false⟩
      | none => .ok (env.partStatusFromOS, false)
    else
      .fail ⟨"unknown device type " ++ device.status.deviceStatus.details.deviceType,
        false, false⟩
  match fetched with
  | .fail e => ⟨device, some e⟩
  | .ok (newStatus0, needAutoProvision) =>
    ⟨applyNewStatus device devPath newStatus0 needAutoProvision, none⟩

/-- The controller's identity: the namespace it watches and its node name. -/
structure Ctl where
  nspace : String
  nodeName : String
deriving DecidableEq

/-- Oracle results of the node fetches and the node write inside
provisionDeviceToNode. -/
structure ProvisionEnv where
  nodeCacheGet : Fetched LonghornNode
  nodeGet : Fetched LonghornNode
  nodeUpdateResult : Option GoErr
deriving DecidableEq

/-- What one run of provisionDeviceToNode produced: the mutated device, the
tag cache after the run, the orchestrator Spec.Disks as left on the server,
the number of node writes and the returned error. -/
structure ProvisionResult where
  device : BlockDevice
  cache : TagCache
  finalDisks : List (String × DiskSpec)
  nodeUpdates : Nat
  err : Option GoErr
deriving DecidableEq

/-- The node lookup at the head of provisionDeviceToNode: prefer the cache,
fall back to the authoritative read only on a not-found error. -/
def fetchProvisionNode (env : ProvisionEnv) : Fetched LonghornNode :=
  match env.nodeCacheGet with
  | .ok n => .ok n
  | .fail e => if e.notFound then env.nodeGet else .fail e

/-- The intended DiskSpec provisionDeviceToNode builds for a device. -/
def provisionDiskSpec (device : BlockDevice) : DiskSpec :=
  { path := extraDiskMountPoint device
  , allowScheduling := true
  , evictionRequested := false
  , storageReserved := 0
  , tags := some device.spec.tags }

/-- The tag-respecting filter of provisionDeviceToNode: when the cache knows
the device, keep only the orchestrator tags the cache does not hold;
otherwise keep them all. -/
def respectedTags (cache : TagCache) (name : String) (diskTags : List String) :
    List String :=
  if devExist cache name then
    diskTags.filter (fun t => !(getDiskTags cache name).contains t)
  else diskTags

/-- The device mutation applied when DiskAddedToNode is not yet true: phase
Provisioned and the success condition. -/
def markProvisioned (device : BlockDevice) (node : LonghornNode) : BlockDevice :=
  let msg := "Added disk " ++ device.name ++ " to longhorn node " ++ node.name
    ++ " as an additional disk"
  { device with
      status.provisionPhase := .provisioned
      status.diskAddedToNode :=
        (((device.status.diskAddedToNode.setErr none).setStatusBool true).setMessage msg) }

/-- The merged disk entry of provisionDeviceToNode when the node already has
an entry with non-nil tags tnode: the intended entry, its tags replaced by
the dedupe of the respected orchestrator-only tags followed by the device's
spec tags. -/
def mergedDiskSpec (cache : TagCache) (device : BlockDevice)
    (tnode : List String) : DiskSpec :=
  { provisionDiskSpec device with
    tags := some (sliceDedupe
      (respectedTags cache device.name tnode ++ device.spec.tags)) }

/-- provisionDeviceToNode from controller.go: fetch the node, build the
intended disk entry, merge tags when an entry with non-nil tags exists, write
the node when the entry differs, mark the device provisioned when needed, and
record the device tags in the cache. -/
def provisionDeviceToNode (env : ProvisionEnv) (cache : TagCache)
    (device : BlockDevice) : ProvisionResult :=
  match fetchProvisionNode env with
  | .fail e => ⟨device, cache, [], 0, some e⟩
  | .ok node =>
    let base := provisionDiskSpec device
    let merged : DiskSpec × Bool :=
      match alistLookup node.disks device.name with
      | some disk =>
        match disk.tags with
        | some tnode =>
          (mergedDiskSpec cache device tnode, disk == mergedDiskSpec cache device tnode)
        | none => (base, false)
      | none => (base, false)
    let diskSpec := merged.1
    let updated := merged.2
    if !updated || !device.status.diskAddedToNode.statusTrue then
      if !updated then
        match env.nodeUpdateResult with
        | some e => ⟨device, cache, node.disks, 1, some e⟩
        | none =>
          let d2 :=
            if !device.status.diskAddedToNode.statusTrue then
              markProvisioned device node
            else device
          ⟨d2, updateDiskTags cache device.name device.spec.tags,
            alistInsert node.disks device.name diskSpec, 1, none⟩
      else
        let d2 :=
          if !device.status.diskAddedToNode.statusTrue then
            markProvisioned device node
          else device
        ⟨d2, updateDiskTags cache device.name device.spec.tags, node.disks, 0, none⟩
    else
      ⟨device, updateDiskTags cache device.name device.spec.tags, node.disks, 0, none⟩

/-- Oracle results of the node fetch and the node write inside
unprovisionDeviceFromNode. -/
structure UnprovisionEnv where
  nodeGet : Fetched LonghornNode
  nodeUpdateResult : Option GoErr
deriving DecidableEq

/-- What one run of unprovisionDeviceFromNode produced: the mutated device,
the node payload written (when a write happened), the node-write and
re-enqueue counters and the returned error. -/
structure UnprovisionResult where
  device : BlockDevice
  writtenNode : Option LonghornNode
  nodeUpdates : Nat
  enqueues : Nat
  err : Option GoErr
deriving DecidableEq

/-- updateProvisionPhaseUnprovisioned from controller.go: phase Unprovisioned
and the DiskAddedToNode condition cleared to false. -/
def markUnprovisioned (ctl : Ctl) (device : BlockDevice) : BlockDevice :=
  let msg := "Disk not in longhorn node " ++ ctl.nodeName
  { device with
      status.provisionPhase := .unprovisioned
      status.diskAddedToNode :=
        (((device.status.diskAddedToNode.setErr none).setStatusBool false).setMessage msg) }

/-- The device mutation of the eviction branch: phase Unprovisioning and the
DiskAddedToNode condition cleared to false. -/
def markUnprovisioning (ctl : Ctl) (device : BlockDevice) : BlockDevice :=
  let msg := "Stop provisioning device " ++ device.name ++ " to longhorn node "
    ++ ctl.nodeName
  { device with
      status.provisionPhase := .unprovisioning
      status.diskAddedToNode :=
        (((device.status.diskAddedToNode.setErr none).setStatusBool false).setMessage msg) }

/-- unprovisionDeviceFromNode from controller.go: swallow a not-found node,
mark a missing entry unprovisioned, and otherwise run the two-phase removal —
tag the entry for eviction first, then delete it once the scheduled replicas
have drained, re-enqueueing while draining. -/
def unprovisionDeviceFromNode (ctl : Ctl) (env : UnprovisionEnv)
    (device : BlockDevice) : UnprovisionResult :=
  match env.nodeGet with
  | .fail e =>
    if e.notFound then ⟨device, none, 0, 0, none⟩
    else ⟨device, none, 0, 0, some e⟩
  | .ok node =>
    match alistLookup node.disks device.name with
    | none => ⟨markUnprovisioned ctl device, none, 0, 0, none⟩
    | some diskToRemove =>
      let isUnprovisioning := (diskToRemove.tags.getD []).contains DiskRemoveTag
      if isUnprovisioning then
        match alistLookup node.diskStatus device.name with
        | some st =>
          if st.scheduledReplica.length = 0 then
            let nodeCpy := { node with disks := alistErase node.disks device.name }
            match env.nodeUpdateResult with
            | some e => ⟨device, some nodeCpy, 1, 0, some e⟩
            | none => ⟨markUnprovisioned ctl device, some nodeCpy, 1, 0, none⟩
          else ⟨device, none, 0, 1, none⟩
        | none => ⟨device, none, 0, 1, none⟩
      else
        let tagged := { diskToRemove with
          allowScheduling := false
          evictionRequested := true
          tags := some ((diskToRemove.tags.getD []) ++ [DiskRemoveTag]) }
        let nodeCpy := { node with
          disks := alistInsert node.disks device.name tagged }
        match env.nodeUpdateResult with
        | some e => ⟨device, some nodeCpy, 1, 0, some e⟩
        | none => ⟨markUnprovisioning ctl device, some nodeCpy, 1, 0, none⟩

/-- Everything external one OnBlockDeviceChange invocation can observe: the
tag-cache barrier and content, the path resolution, the filesystem
observation, and the oracle environments of every stage, plus the result of a
block-device store write. -/
structure ChangeEnv where
  tagCacheInited : Bool
  cache : TagCache
  resolvedPath : Fetched String
  fsInfo : Option FileSystemInfo
  formatEnv : FormatEnv
  mountEnv : MountEnv
  provisionEnv : ProvisionEnv
  tagCheckNodeGet : Fetched LonghornNode
  unprovisionEnv : UnprovisionEnv
  statusEnv : StatusEnv
  bdUpdateResult : Option GoErr
deriving DecidableEq

/-- What the provision/unprovision switch of the handler produced. -/
structure StageResult where
  device : BlockDevice
  cache : TagCache
  nodeUpdates : Nat
  enqueues : Nat
deriving DecidableEq

/-- The provision/unprovision switch of OnBlockDeviceChange: tag-drift
re-provisioning for an already provisioned device, first-time provisioning,
or unprovisioning, with the code's per-case error handling (conditions and
re-enqueue). -/
def provisionStage (ctl : Ctl) (env : ChangeEnv) (device : BlockDevice) :
    StageResult :=
  let needProvision := device.spec.fileSystem.provisioned
  if needProvision && (device.status.provisionPhase == ProvisionPhase.provisioned) then
    let tagsSynced := sliceContentCmp device.spec.tags (getDiskTags env.cache device.name)
    let missed : Bool :=
      match env.tagCheckNodeGet with
      | .fail _ => true
      | .ok node =>
        let nodeDiskTags :=
          match alistLookup node.disks device.name with
          | some d => d.tags.getD []
          | none => []
        device.spec.tags.any (fun tag => !nodeDiskTags.contains tag)
    if !tagsSynced || (tagsSynced && missed) then
      let pr := provisionDeviceToNode env.provisionEnv env.cache device
      match pr.err with
      | some _ => ⟨pr.device, pr.cache, pr.nodeUpdates, 1⟩
      | none => ⟨pr.device, pr.cache, pr.nodeUpdates, 0⟩
    else ⟨device, env.cache, 0, 0⟩
  else if needProvision && (device.status.provisionPhase == ProvisionPhase.unprovisioned) then
    let pr := provisionDeviceToNode env.provisionEnv env.cache device
    match pr.err with
    | some e =>
      let e2 : GoErr := ⟨"failed to provision device " ++ device.name
        ++ " to node " ++ ctl.nodeName ++ ": " ++ e.msg, false, false⟩
      let d2 := { pr.device with
        status.diskAddedToNode :=
          ((pr.device.status.diskAddedToNode.setErr (some e2)).setStatusBool false) }
      ⟨d2, pr.cache, pr.nodeUpdates, 1⟩
    | none => ⟨pr.device, pr.cache, pr.nodeUpdates, 0⟩
  else if !needProvision && !(device.status.provisionPhase == ProvisionPhase.unprovisioned) then
    let ur := unprovisionDeviceFromNode ctl env.unprovisionEnv device
    match ur.err with
    | some e =>
      let e2 : GoErr := ⟨"failed to stop provisioning device " ++ device.name
        ++ " to node " ++ ctl.nodeName ++ ": " ++ e.msg, false, false⟩
      let d2 := { ur.device with
        status.diskAddedToNode :=
          ((ur.device.status.diskAddedToNode.setErr (some e2)).setStatusBool false) }
      ⟨d2, env.cache, ur.nodeUpdates, ur.enqueues + 1⟩
    | none => ⟨ur.device, env.cache, ur.nodeUpdates, ur.enqueues⟩
  else ⟨device, env.cache, 0, 0⟩

/-- What one OnBlockDeviceChange invocation produced: the returned device,
the returned error, and the write/enqueue counters of the whole invocation. -/
structure ChangeResult where
  ret : Option BlockDevice
  err : Option GoErr
  bdUpdates : Nat
  nodeUpdates : Nat
  enqueues : Nat
  cache : TagCache
deriving DecidableEq

/-- OnBlockDeviceChange from controller.go: the guards, the path resolution,
then the staged pipeline — format, mount, provision or unprovision, status
refresh — each stage followed by a write-back only when the working copy
differs from the input device. -/
def OnBlockDeviceChange (ctl : Ctl) (env : ChangeEnv)
    (deviceOpt : Option BlockDevice) : ChangeResult :=
  match deviceOpt with
  | none => ⟨none, none, 0, 0, 0, env.cache⟩
  | some device =>
    if device.deletionTimestamp.isSome
        || device.spec.nodeName != ctl.nodeName
        || device.status.state == BlockDeviceState.inactive then
      ⟨none, none, 0, 0, 0, env.cache⟩
    else if device.status.deviceStatus.fileSystem.corrupted
        && !device.spec.fileSystem.forceFormatted
        && !device.spec.fileSystem.repaired then
      ⟨none, none, 0, 0, 0, env.cache⟩
    else if !env.tagCacheInited then
      ⟨none, some ⟨"CacheDiskTags is not initialized", false, false⟩, 0, 0, 0, env.cache⟩
    else
      match env.resolvedPath with
      | .fail e => ⟨none, some e, 0, 0, 0, env.cache⟩
      | .ok devPath =>
        if devPath == "" then
          ⟨none, some ⟨"failed to resolve persistent dev path for block device "
            ++ device.name, false, false⟩, 0, 0, 0, env.cache⟩
        else
          let filesystem := env.fsInfo
          let needFormat := device.spec.fileSystem.forceFormatted
            && (device.status.deviceStatus.fileSystem.corrupted
              || device.status.deviceStatus.fileSystem.lastFormattedAt.isNone)
          if needFormat then
            let fr := forceFormat env.formatEnv device devPath filesystem
            let afterCond : BlockDevice × Option GoErr :=
              match fr.err with
              | some e =>
                let e2 : GoErr := ⟨"failed to force format device "
                  ++ device.name ++ ": " ++ e.msg, false, false⟩
                ({ fr.device with
                    status.deviceFormatting :=
                      ((fr.device.status.deviceFormatting.setErr (some e2)).setStatusBool false) },
                  some e2)
              | none => (fr.device, none)
            if afterCond.1 != device then
              ⟨some afterCond.1, env.bdUpdateResult, 1, 0, fr.enqueues, env.cache⟩
            else ⟨some device, afterCond.2, 0, 0, fr.enqueues, env.cache⟩
          else if needUpdateMountPoint device filesystem != NeedMountUpdateNoOp then
            let mr := updateDeviceMount env.mountEnv device devPath filesystem
              (needUpdateMountPoint device filesystem)
            let afterCond : BlockDevice × Option GoErr :=
              match mr.err with
              | some e =>
                let e2 : GoErr := ⟨"failed to update device mount "
                  ++ device.name ++ ": " ++ e.msg, false, false⟩
                ({ mr.device with
                    status.deviceMounted :=
                      ((mr.device.status.deviceMounted.setErr (some e2)).setStatusBool false) },
                  some e2)
              | none => (mr.device, none)
            if afterCond.1 != device then
              ⟨some afterCond.1, env.bdUpdateResult, 1, 0, 0, env.cache⟩
            else ⟨some device, afterCond.2, 0, 0, 0, env.cache⟩
          else
            let sr := provisionStage ctl env device
            if sr.device != device then
              ⟨some sr.device, env.bdUpdateResult, 1, sr.nodeUpdates, sr.enqueues, sr.cache⟩
            else
              let st := updateDeviceStatus env.statusEnv sr.device devPath
              match st.err with
              | some e => ⟨none, some e, 0, sr.nodeUpdates, sr.enqueues, sr.cache⟩
              | none =>
                if st.device != device then
                  ⟨some st.device, env.bdUpdateResult, 1, sr.nodeUpdates, sr.enqueues, sr.cache⟩
                else ⟨none, none, 0, sr.nodeUpdates, sr.enqueues, sr.cache⟩

/-- A format-gate environment with one free slot and benign oracle results. -/
def fmtEnv0 : FormatEnv :=
  ⟨0, 1, none, none, some ⟨"", "ext4", false⟩, 5⟩

/-- A format-gate environment whose gate is at capacity. -/
def fmtEnvFull : FormatEnv :=
  ⟨2, 2, none, none, some ⟨"", "ext4", false⟩, 5⟩

/-- A concrete sample device used by the witness and counterexample
theorems. -/
def dev0 : BlockDevice :=
  { name := "d1"
  , deletionTimestamp := none
  , spec :=
    { nodeName := "n1"
    , fileSystem :=
      { mountPoint := "", forceFormatted := false, repaired := false
      , provisioned := false }
    , tags := [] }
  , status :=
    { state := .active
    , deviceStatus :=
      { details :=
        { deviceType := "disk", wwn := "wwn1", uuid := "", ptUUID := ""
        , partUUID := "", storageController := "" }
      , fileSystem :=
        { mountPoint := "", fsType := "ext4", isReadOnly := false
        , corrupted := false, lastFormattedAt := none }
      , partitioned := false
      , devPath := "/dev/sda" }
    , provisionPhase := .unprovisioned
    , deviceFormatting := ⟨false, "", ""⟩
    , deviceMounted := ⟨false, "", ""⟩
    , diskAddedToNode := ⟨false, "", ""⟩ } }

/-- A sample device lacking a WWN whose stored UUID is the literal sentinel
"unknown" and whose PtUUID is empty. -/
def dev3 : BlockDevice :=
  { dev0 with
    status.deviceStatus.details.wwn := ""
    status.deviceStatus.details.uuid := "unknown" }

/-- A sample controller identity. -/
def ctl0 : Ctl := ⟨"harvester-system", "n1"⟩

/-- A sample provisioned device whose spec no longer asks for provisioning. -/
def devC1 : BlockDevice :=
  { dev0 with
    status.provisionPhase := .provisioned
    status.diskAddedToNode := ⟨true, "", ""⟩ }

/-- An unprovision environment whose node fetch reports not-found. -/
def envNotFound : UnprovisionEnv :=
  ⟨.fail ⟨"nodes n1 not found", true, false⟩, none⟩

/-- A disk entry already tagged with the removal sentinel. -/
def diskRm : DiskSpec :=
  ⟨"/var/lib/harvester/extra-disks/d1", false, true, 0, some ["remove"]⟩

/-- A node whose d1 entry is tagged for removal and fully drained. -/
def nodeC2 : LonghornNode := ⟨"n1", [("d1", diskRm)], [("d1", ⟨[]⟩)]⟩

/-- An unprovision environment serving nodeC2 with a successful write. -/
def envC2 : UnprovisionEnv := ⟨.ok nodeC2, none⟩

/-- A disk entry with tags only the orchestrator knows about. -/
def diskC4 : DiskSpec :=
  ⟨"/var/lib/harvester/extra-disks/d1", true, false, 0, some ["ssd", "zone-a"]⟩

/-- A node carrying diskC4 for device d1. -/
def nodeC4 : LonghornNode := ⟨"n1", [("d1", diskC4)], []⟩

/-- A provision environment serving nodeC4 from the cache with a successful
write. -/
def envC4 : ProvisionEnv := ⟨.ok nodeC4, .ok nodeC4, none⟩

/-- A tag cache that recorded only the tag "ssd" for d1. -/
def cacheC4 : TagCache := [("d1", ["ssd"])]

/-- A sample provisioned device asking for tags ssd and fast. -/
def devC4 : BlockDevice :=
  { devC1 with spec.tags := ["ssd", "fast"] }

end NDM

namespace NDM

/-- C5: The mount-plan decision function is pure and, for every device and
observed filesystem, returns exactly the outcome the spec's Plan function
prescribes: NoOp when the observation is absent; when Provisioned, Mount on an
empty mount point, NoOp on the expected mount point, Unmount-then-Mount
otherwise; when not Provisioned, Unmount on a non-empty mount point and NoOp
otherwise. -/
theorem needUpdateMountPoint_eq_spec (bd : BlockDevice)
    (fsObserved : Option FileSystemInfo) :
    needUpdateMountPoint bd fsObserved = (mountPlanSpec bd fsObserved).encode := by
  cases fsObserved with
  | none => rfl
  | some fs =>
    simp only [needUpdateMountPoint, mountPlanSpec]
    by_cases hp : bd.spec.fileSystem.provisioned <;>
      by_cases h1 : fs.mountPoint = "" <;>
      by_cases h2 : fs.mountPoint = extraDiskMountPoint bd <;>
      simp [hp, h1, h2, MountPlan.encode, NeedMountUpdateNoOp,
        NeedMountUpdateMount, NeedMountUpdateUnmount] <;>
      split <;> rfl

/-- Refreshing the filesystem observation never changes the corruption
flag of the device status. -/
theorem updateDeviceFileSystem_corrupted (d : BlockDevice)
    (fsInfo : Option FileSystemInfo) :
    (updateDeviceFileSystem d fsInfo).1.status.deviceStatus.fileSystem.corrupted
      = d.status.deviceStatus.fileSystem.corrupted := by
  unfold updateDeviceFileSystem
  split
  · rfl
  · cases fsInfo with
    | none => rfl
    | some fs => dsimp only; split <;> rfl

/-- Refreshing the filesystem observation never changes the hardware details
of the device status. -/
theorem updateDeviceFileSystem_details (d : BlockDevice)
    (fsInfo : Option FileSystemInfo) :
    (updateDeviceFileSystem d fsInfo).1.status.deviceStatus.details
      = d.status.deviceStatus.details := by
  unfold updateDeviceFileSystem
  split
  · rfl
  · cases fsInfo with
    | none => rfl
    | some fs => dsimp only; split <;> rfl

/-- Refreshing the filesystem observation never changes the device spec. -/
theorem updateDeviceFileSystem_spec (d : BlockDevice)
    (fsInfo : Option FileSystemInfo) :
    (updateDeviceFileSystem d fsInfo).1.spec = d.spec := by
  unfold updateDeviceFileSystem
  split
  · rfl
  · cases fsInfo with
    | none => rfl
    | some fs => dsimp only; split <;> rfl

/-- C6: when the mount subprocess fails, updateDeviceMount returns that error;
when the error is classified filesystem-corrupted it also sets
Status.DeviceStatus.FileSystem.Corrupted to true and Spec.FileSystem.Repaired
to false, and when it is not so classified it leaves both fields unchanged. -/
theorem updateDeviceMount_mount_failure (env : MountEnv) (device : BlockDevice)
    (devPath : String) (filesystem : Option FileSystemInfo) (op : Nat) (e : GoErr)
    (hp : device.status.deviceStatus.partitioned = false)
    (hu : hasOp op NeedMountUpdateUnmount = true → env.umountResult = none)
    (hm : hasOp op NeedMountUpdateMount = true)
    (he : env.mountResult = some e) :
    (updateDeviceMount env device devPath filesystem op).err = some e ∧
    (e.fsCorrupted = true →
      (updateDeviceMount env device devPath filesystem op).device.status.deviceStatus.fileSystem.corrupted = true ∧
      (updateDeviceMount env device devPath filesystem op).device.spec.fileSystem.repaired = false) ∧
    (e.fsCorrupted = false →
      (updateDeviceMount env device devPath filesystem op).device.status.deviceStatus.fileSystem.corrupted
        = device.status.deviceStatus.fileSystem.corrupted ∧
      (updateDeviceMount env device devPath filesystem op).device.spec.fileSystem.repaired
        = device.spec.fileSystem.repaired) := by
  unfold updateDeviceMount
  by_cases hun : hasOp op NeedMountUpdateUnmount
  · have h0 := hu hun
    cases hc : e.fsCorrupted <;>
      simp [hp, hun, h0, hm, he, isFSCorrupted, hc, Condition.setErr,
        Condition.setStatusBool]
  · cases hc : e.fsCorrupted <;>
      simp [hp, hun, hm, he, isFSCorrupted, hc]

/-- A closed witness for the mount-failure theorem: a corrupted-classified
mount failure on the sample device flags corruption and surfaces the error. -/
theorem updateDeviceMount_mount_failure_witness :
    (updateDeviceMount ⟨none, some ⟨"bad fs", false, true⟩, none⟩ dev0 "/dev/sda"
      (some ⟨"", "", false⟩) 2).err = some ⟨"bad fs", false, true⟩ :=
  (updateDeviceMount_mount_failure ⟨none, some ⟨"bad fs", false, true⟩, none⟩ dev0
    "/dev/sda" (some ⟨"", "", false⟩) 2 ⟨"bad fs", false, true⟩ (by decide)
    (by intro h; exact absurd h (by decide)) (by decide) rfl).1

/-- C10: whenever every step of the mount plan succeeds (including a plan that
only unmounts, or an empty plan), updateDeviceMount leaves the device with
Status.DeviceStatus.FileSystem.Corrupted equal to false: a successfully
applied plan clears a previously recorded corruption flag even when no mount
verified the filesystem, regardless of how the final observation refresh
turns out. -/
theorem updateDeviceMount_success_clears_corrupted (env : MountEnv)
    (device : BlockDevice) (devPath : String)
    (filesystem : Option FileSystemInfo) (op : Nat)
    (hp : device.status.deviceStatus.partitioned = false)
    (hu : hasOp op NeedMountUpdateUnmount = true → env.umountResult = none)
    (hm : hasOp op NeedMountUpdateMount = true → env.mountResult = none) :
    (updateDeviceMount env device devPath filesystem op).device.status.deviceStatus.fileSystem.corrupted
      = false := by
  unfold updateDeviceMount mountFinish
  by_cases hun : hasOp op NeedMountUpdateUnmount <;>
    by_cases hmo : hasOp op NeedMountUpdateMount
  · have h0 := hu hun
    have h1 := hm hmo
    simp [hp, hun, hmo, h0, h1, updateDeviceFileSystem_corrupted]
  · have h0 := hu hun
    simp [hp, hun, hmo, h0, updateDeviceFileSystem_corrupted]
  · have h1 := hm hmo
    simp [hp, hun, hmo, h1, updateDeviceFileSystem_corrupted]
  · simp [hp, hun, hmo, updateDeviceFileSystem_corrupted]

/-- A closed witness for the corruption-clearing theorem: an unmount-only plan
on a previously corrupted sample device ends with the flag cleared. -/
theorem updateDeviceMount_success_clears_corrupted_witness :
    (updateDeviceMount ⟨none, none, none⟩
      { dev0 with status.deviceStatus.fileSystem.corrupted := true }
      "/dev/sda" (some ⟨"/mnt/x", "ext4", false⟩)
      4).device.status.deviceStatus.fileSystem.corrupted = false :=
  updateDeviceMount_success_clears_corrupted ⟨none, none, none⟩
    { dev0 with status.deviceStatus.fileSystem.corrupted := true }
    "/dev/sda" (some ⟨"/mnt/x", "ext4", false⟩) 4 (by decide)
    (fun _ => rfl) (fun _ => rfl)

/-- The tail of the formatting stage always exits with the semaphore count it
was handed, whatever the oracle results. -/
theorem forceFormatCore_semCount (env : FormatEnv) (device : BlockDevice)
    (uc rel : Nat) : (forceFormatCore env device uc rel).semCount = rel := by
  unfold forceFormatCore
  cases env.mkfsResult with
  | some e => rfl
  | none => dsimp only; split <;> rfl

/-- C9: when the format-gate acquire fails, forceFormat re-enqueues once and
returns nil without unmounting, running mkfs or mutating the device, and
leaves the semaphore count unchanged; and whenever the acquire succeeds, the
semaphore count on exit equals the count on entry — the deferred release runs
on every exit path. -/
theorem forceFormat_gate (env : FormatEnv) (device : BlockDevice)
    (devPath : String) (filesystem : Option FileSystemInfo) :
    (¬ env.semCount < env.semCap →
      (forceFormat env device devPath filesystem).err = none ∧
      (forceFormat env device devPath filesystem).enqueues = 1 ∧
      (forceFormat env device devPath filesystem).device = device ∧
      (forceFormat env device devPath filesystem).mkfsCalls = 0 ∧
      (forceFormat env device devPath filesystem).umountCalls = 0 ∧
      (forceFormat env device devPath filesystem).semCount = env.semCount) ∧
    (env.semCount < env.semCap →
      (forceFormat env device devPath filesystem).semCount = env.semCount) := by
  constructor
  · intro h
    unfold forceFormat semAcquire
    simp [h]
  · intro h
    unfold forceFormat semAcquire
    simp only [h, if_true]
    split
    · cases env.umountResult <;>
        simp [forceFormatCore_semCount, semRelease]
    · simp [forceFormatCore_semCount, semRelease]

/-- The mkfs-and-after part of the formatting stage writes the reused UUID
back exactly when it is non-empty, and otherwise leaves the stored UUID
untouched (shown for runs that return no error). -/
theorem forceFormatCore_uuid (env : FormatEnv) (device : BlockDevice)
    (uc rel : Nat)
    (hok : (forceFormatCore env device uc rel).err = none) :
    (formatUUID device ≠ "" →
      (forceFormatCore env device uc rel).device.status.deviceStatus.details.uuid
        = formatUUID device) ∧
    (formatUUID device = "" →
      (forceFormatCore env device uc rel).device.status.deviceStatus.details.uuid
        = device.status.deviceStatus.details.uuid) := by
  revert hok
  unfold forceFormatCore
  cases env.mkfsResult with
  | some e => intro hok; simp at hok
  | none =>
    dsimp only
    by_cases hu : formatUUID device = ""
    · simp only [hu, ne_eq, not_true_eq_false, if_false, ite_false]
      rcases h2 : updateDeviceFileSystem device env.fsAfter with ⟨d2, e2⟩
      have hd := updateDeviceFileSystem_details device env.fsAfter
      rw [h2] at hd
      cases e2 with
      | some e => intro hok; simp at hok
      | none => intro _; simp at hd; simp [hd, hu]
    · simp only [hu, ne_eq, not_false_eq_true, if_true, ite_true]
      rcases h2 : updateDeviceFileSystem
          { device with status.deviceStatus.details.uuid := formatUUID device }
          env.fsAfter with ⟨d2, e2⟩
      have hd := updateDeviceFileSystem_details
        { device with status.deviceStatus.details.uuid := formatUUID device }
        env.fsAfter
      rw [h2] at hd
      cases e2 with
      | some e => intro hok; simp at hok
      | none => intro _; simp at hd; simp [hd, hu]

/-- C3 (amended): for a device lacking a WWN, a forceFormat run that actually
performed mkfs and returned no error leaves Status.DeviceStatus.Details.UUID
equal to the UUID passed to mkfs whenever that UUID is non-empty; when the
passed UUID is empty the field keeps its previous value. -/
theorem forceFormat_uuid_reuse (env : FormatEnv) (device : BlockDevice)
    (devPath : String) (filesystem : Option FileSystemInfo)
    (hw : valueExists device.status.deviceStatus.details.wwn = false)
    (hok : (forceFormat env device devPath filesystem).err = none)
    (hran : (forceFormat env device devPath filesystem).mkfsCalls = 1) :
    (formatUUID device ≠ "" →
      (forceFormat env device devPath filesystem).device.status.deviceStatus.details.uuid
        = formatUUID device) ∧
    (formatUUID device = "" →
      (forceFormat env device devPath filesystem).device.status.deviceStatus.details.uuid
        = device.status.deviceStatus.details.uuid) := by
  revert hok hran
  unfold forceFormat semAcquire
  by_cases h : env.semCount < env.semCap
  · simp only [h, if_true]
    split
    · cases env.umountResult with
      | some e => intro hok _; simp at hok
      | none =>
        intro hok _
        exact forceFormatCore_uuid env device 1 (semRelease (env.semCount + 1)) hok
    · intro hok _
      exact forceFormatCore_uuid env device 0 (semRelease (env.semCount + 1)) hok
  · simp only [h, if_false]
    intro _ hran
    simp at hran

/-- A closed witness for the amended UUID-reuse theorem: on a WWN-less sample
device carrying a partition-table UUID, a successful format writes that UUID
into Details.UUID. -/
theorem forceFormat_uuid_reuse_witness :
    (forceFormat fmtEnv0
      { dev3 with status.deviceStatus.details.ptUUID := "pt-1" } "/dev/sda"
      none).device.status.deviceStatus.details.uuid = "pt-1" :=
  (forceFormat_uuid_reuse fmtEnv0
    { dev3 with status.deviceStatus.details.ptUUID := "pt-1" } "/dev/sda" none
    (by decide) (by decide) (by decide)).1 (by decide)

/-- C3 (counterexample to the claim as stated): a WWN-less device whose stored
UUID is the literal "unknown" and whose PtUUID is absent passes the empty UUID
to mkfs; after a successful format the stored UUID is still "unknown", not the
UUID passed. -/
theorem forceFormat_uuid_claim_cex :
    (forceFormat fmtEnv0 dev3 "/dev/sda" none).err = none ∧
    (forceFormat fmtEnv0 dev3 "/dev/sda" none).mkfsCalls = 1 ∧
    valueExists dev3.status.deviceStatus.details.wwn = false ∧
    formatUUID dev3 = "" ∧
    (forceFormat fmtEnv0 dev3 "/dev/sda" none).device.status.deviceStatus.details.uuid
      = "unknown" := by
  refine ⟨?_, ?_, ?_, ?_, ?_⟩ <;> decide

/-- A closed witness for the format-gate theorem: with the gate at capacity
the sample device is re-enqueued once, no error is returned and the device is
untouched. -/
theorem forceFormat_gate_witness :
    (forceFormat fmtEnvFull dev0 "/dev/sda" none).err = none ∧
    (forceFormat fmtEnvFull dev0 "/dev/sda" none).enqueues = 1 ∧
    (forceFormat fmtEnvFull dev0 "/dev/sda" none).device = dev0 ∧
    (forceFormat fmtEnvFull dev0 "/dev/sda" none).mkfsCalls = 0 ∧
    (forceFormat fmtEnvFull dev0 "/dev/sda" none).umountCalls = 0 ∧
    (forceFormat fmtEnvFull dev0 "/dev/sda" none).semCount = fmtEnvFull.semCount :=
  (forceFormat_gate fmtEnvFull dev0 "/dev/sda" none).1 (by decide)


/-- The straight-line tail of the status refresh keeps the format timestamp
present whenever the old status had one. -/
theorem applyNewStatus_keeps_lastFormattedAt (device : BlockDevice)
    (devPath : String) (newStatus0 : DeviceStatus) (autop : Bool)
    (h : device.status.deviceStatus.fileSystem.lastFormattedAt.isSome = true) :
    (applyNewStatus device devPath newStatus0 autop).status.deviceStatus.fileSystem.lastFormattedAt.isSome
      = true := by
  unfold applyNewStatus
  dsimp only
  by_cases hc : (device.status.deviceStatus.fileSystem.lastFormattedAt.isSome &&
      newStatus0.fileSystem.lastFormattedAt.isNone) = true
  · rw [if_pos hc]
    repeat' split
    all_goals exact h
  · have hs : newStatus0.fileSystem.lastFormattedAt.isSome = true := by
      have hne : newStatus0.fileSystem.lastFormattedAt ≠ none := by
        intro hx
        exact hc (by simp [h, hx])
      exact Option.ne_none_iff_isSome.mp hne
    rw [if_neg hc]
    repeat' split
    all_goals first | exact h | exact hs

/-- C8: a status refresh never clears format history — whenever the old
Status.DeviceStatus.FileSystem.LastFormattedAt is non-nil, the device that
updateDeviceStatus leaves behind still has a non-nil LastFormattedAt,
whatever the freshly built status contained. -/
theorem updateDeviceStatus_preserves_lastFormattedAt (env : StatusEnv)
    (device : BlockDevice) (devPath : String)
    (h : device.status.deviceStatus.fileSystem.lastFormattedAt.isSome = true) :
    (updateDeviceStatus env device devPath).device.status.deviceStatus.fileSystem.lastFormattedAt.isSome
      = true := by
  unfold updateDeviceStatus
  by_cases h1 : device.status.deviceStatus.details.deviceType = "disk"
  · simp only [h1, if_true]
    exact applyNewStatus_keeps_lastFormattedAt device devPath
      env.diskStatusFromOS env.needAutoProvision h
  · by_cases h2 : device.status.deviceStatus.details.deviceType = "part"
    · simp only [h1, h2, if_false, if_true]
      cases env.partParentErr with
      | some e => simpa using h
      | none =>
        exact applyNewStatus_keeps_lastFormattedAt device devPath
          env.partStatusFromOS false h
    · simp only [h1, h2, if_false]
      simpa using h

/-- A closed witness for the LastFormattedAt preservation theorem: a refresh
whose freshly built status carries no timestamp keeps the sample device's
recorded one. -/
theorem updateDeviceStatus_preserves_lastFormattedAt_witness :
    (updateDeviceStatus ⟨dev0.status.deviceStatus, none, dev0.status.deviceStatus, false⟩
      { dev0 with status.deviceStatus.fileSystem.lastFormattedAt := some 7 }
      "/dev/sdb").device.status.deviceStatus.fileSystem.lastFormattedAt.isSome = true :=
  updateDeviceStatus_preserves_lastFormattedAt
    ⟨dev0.status.deviceStatus, none, dev0.status.deviceStatus, false⟩
    { dev0 with status.deviceStatus.fileSystem.lastFormattedAt := some 7 }
    "/dev/sdb" (by decide)


/-- C1 (amended): when the orchestrator node load inside
unprovisionDeviceFromNode fails with a not-found error, the call returns no
error and performs nothing at all: the device is returned unchanged (its
ProvisionPhase and DiskAddedToNode condition untouched), no node write
happens and nothing is re-enqueued. -/
theorem unprovision_node_not_found (ctl : Ctl) (env : UnprovisionEnv)
    (device : BlockDevice) (e : GoErr)
    (h1 : env.nodeGet = .fail e) (h2 : e.notFound = true) :
    (unprovisionDeviceFromNode ctl env device).err = none ∧
    (unprovisionDeviceFromNode ctl env device).device = device ∧
    (unprovisionDeviceFromNode ctl env device).nodeUpdates = 0 ∧
    (unprovisionDeviceFromNode ctl env device).enqueues = 0 ∧
    (unprovisionDeviceFromNode ctl env device).writtenNode = none := by
  unfold unprovisionDeviceFromNode
  rw [h1]
  simp [h2]

/-- A closed witness for the amended not-found theorem at the sample inputs. -/
theorem unprovision_node_not_found_witness :
    (unprovisionDeviceFromNode ctl0 envNotFound devC1).err = none ∧
    (unprovisionDeviceFromNode ctl0 envNotFound devC1).device = devC1 ∧
    (unprovisionDeviceFromNode ctl0 envNotFound devC1).nodeUpdates = 0 ∧
    (unprovisionDeviceFromNode ctl0 envNotFound devC1).enqueues = 0 ∧
    (unprovisionDeviceFromNode ctl0 envNotFound devC1).writtenNode = none :=
  unprovision_node_not_found ctl0 envNotFound devC1
    ⟨"nodes n1 not found", true, false⟩ rfl rfl

/-- C1 (counterexample to the claim as stated): an unprovision call — the
device's Spec.FileSystem.Provisioned is false and its phase is not
Unprovisioned — that hits a not-found node returns no error, yet the phase is
NOT set to Unprovisioned and the DiskAddedToNode condition is NOT set to
false: the device is returned untouched. -/
theorem unprovision_claim_cex :
    devC1.spec.fileSystem.provisioned = false ∧
    devC1.status.provisionPhase ≠ ProvisionPhase.unprovisioned ∧
    (unprovisionDeviceFromNode ctl0 envNotFound devC1).err = none ∧
    (unprovisionDeviceFromNode ctl0 envNotFound devC1).device.status.provisionPhase
      ≠ ProvisionPhase.unprovisioned ∧
    (unprovisionDeviceFromNode ctl0 envNotFound devC1).device.status.diskAddedToNode.statusTrue
      = true := by
  refine ⟨rfl, ?_, ?_, ?_, ?_⟩ <;> decide

/-- Erasing a key from an association list makes its lookup fail. -/
theorem alistLookup_erase_self {α : Type} (l : List (String × α)) (k : String) :
    alistLookup (alistErase l k) k = none := by
  induction l with
  | nil => rfl
  | cons p rest ih =>
    by_cases hp : p.1 = k
    · simpa [alistErase, hp] using ih
    · simpa [alistErase, alistLookup, hp] using ih

/-- Inserting a key into an association list makes its lookup yield the new
value. -/
theorem alistLookup_insert_self {α : Type} (l : List (String × α)) (k : String)
    (v : α) : alistLookup (alistInsert l k v) k = some v := by
  simp [alistInsert, alistLookup]

/-- C2: on an entry already carrying the removal sentinel, the two-phase
removal finishes exactly when the recorded ScheduledReplica mapping exists
and is empty — then one node write removes the entry from Spec.Disks and the
phase becomes Unprovisioned with no error — and otherwise (still draining or
no recorded status) the event is re-enqueued once with no node write. -/
theorem unprovision_two_phase (ctl : Ctl) (env : UnprovisionEnv)
    (device : BlockDevice) (node : LonghornNode) (disk : DiskSpec)
    (h1 : env.nodeGet = .ok node)
    (h2 : alistLookup node.disks device.name = some disk)
    (h3 : (disk.tags.getD []).contains DiskRemoveTag = true) :
    (∀ st, alistLookup node.diskStatus device.name = some st →
      st.scheduledReplica.length = 0 →
      env.nodeUpdateResult = none →
      (unprovisionDeviceFromNode ctl env device).nodeUpdates = 1 ∧
      (∃ n2, (unprovisionDeviceFromNode ctl env device).writtenNode = some n2 ∧
        alistLookup n2.disks device.name = none) ∧
      (unprovisionDeviceFromNode ctl env device).device.status.provisionPhase
        = ProvisionPhase.unprovisioned ∧
      (unprovisionDeviceFromNode ctl env device).err = none) ∧
    ((∀ st, alistLookup node.diskStatus device.name = some st →
        st.scheduledReplica.length ≠ 0) →
      (unprovisionDeviceFromNode ctl env device).enqueues = 1 ∧
      (unprovisionDeviceFromNode ctl env device).nodeUpdates = 0 ∧
      (unprovisionDeviceFromNode ctl env device).writtenNode = none ∧
      (unprovisionDeviceFromNode ctl env device).err = none) := by
  unfold unprovisionDeviceFromNode
  rw [h1]
  dsimp only
  rw [h2]
  dsimp only
  simp only [h3, if_true]
  constructor
  · intro st hst hlen hupd
    rw [hst, hupd]
    simp [hlen, markUnprovisioned, alistLookup_erase_self]
  · intro hall
    cases hds : alistLookup node.diskStatus device.name with
    | none => simp [hds]
    | some st =>
      have hne := hall st hds
      simp [hds, hne]

/-- A closed witness for the two-phase removal theorem: the drained sample
node loses its d1 entry in one write and the device ends Unprovisioned. -/
theorem unprovision_two_phase_witness :
    (unprovisionDeviceFromNode ctl0 envC2 devC1).nodeUpdates = 1 ∧
    (∃ n2, (unprovisionDeviceFromNode ctl0 envC2 devC1).writtenNode = some n2 ∧
      alistLookup n2.disks devC1.name = none) ∧
    (unprovisionDeviceFromNode ctl0 envC2 devC1).device.status.provisionPhase
      = ProvisionPhase.unprovisioned ∧
    (unprovisionDeviceFromNode ctl0 envC2 devC1).err = none :=
  (unprovision_two_phase ctl0 envC2 devC1 nodeC2 diskRm rfl (by decide)
    (by decide)).1 ⟨[]⟩ (by decide) rfl rfl


/-- Membership in the dedupe accumulator: an element survives exactly when it
occurs in the input and was not already seen. -/
theorem mem_sliceDedupeAux (seen l : List String) (x : String) :
    x ∈ sliceDedupeAux seen l ↔ x ∈ l ∧ x ∉ seen := by
  induction l generalizing seen with
  | nil => simp [sliceDedupeAux]
  | cons y ys ih =>
    by_cases hy : seen.contains y = true
    · have hy' : y ∈ seen := by simpa using hy
      rw [sliceDedupeAux, if_pos hy, ih]
      simp only [List.mem_cons]
      constructor
      · rintro ⟨hx, hns⟩
        exact ⟨Or.inr hx, hns⟩
      · rintro ⟨hx | hx, hns⟩
        · exact absurd (hx ▸ hy') hns
        · exact ⟨hx, hns⟩
    · have hy' : y ∉ seen := by simpa using hy
      rw [sliceDedupeAux, if_neg hy]
      simp only [List.mem_cons, ih]
      constructor
      · rintro (hxy | ⟨hx, hns⟩)
        · exact ⟨Or.inl hxy, hxy ▸ hy'⟩
        · exact ⟨Or.inr hx, fun hc => hns (Or.inr hc)⟩
      · rintro ⟨hxy | hx, hns⟩
        · exact Or.inl hxy
        · by_cases hxy : x = y
          · exact Or.inl hxy
          · refine Or.inr ⟨hx, fun hc => ?_⟩
            rcases hc with h | h
            · exact hxy h
            · exact hns h

/-- Membership in sliceDedupe agrees with membership in the input. -/
theorem mem_sliceDedupe (l : List String) (x : String) :
    x ∈ sliceDedupe l ↔ x ∈ l := by
  simp [sliceDedupe, mem_sliceDedupeAux]

/-- The dedupe accumulator produces a duplicate-free list. -/
theorem sliceDedupeAux_nodup (seen l : List String) :
    (sliceDedupeAux seen l).Nodup := by
  induction l generalizing seen with
  | nil => simp [sliceDedupeAux]
  | cons y ys ih =>
    by_cases hy : seen.contains y = true
    · rw [sliceDedupeAux, if_pos hy]
      exact ih seen
    · rw [sliceDedupeAux, if_neg hy]
      rw [List.nodup_cons]
      refine ⟨fun hc => ?_, ih (y :: seen)⟩
      exact ((mem_sliceDedupeAux (y :: seen) ys y).mp hc).2 (List.mem_cons_self y seen)

/-- sliceDedupe produces a duplicate-free list. -/
theorem sliceDedupe_nodup (l : List String) : (sliceDedupe l).Nodup :=
  sliceDedupeAux_nodup [] l

/-- Every orchestrator tag outside the cached tag set survives the
tag-respecting filter. -/
theorem mem_respectedTags (cache : TagCache) (name : String)
    (tnode : List String) (t : String) (ht : t ∈ tnode)
    (hc : t ∉ getDiskTags cache name) : t ∈ respectedTags cache name tnode := by
  unfold respectedTags
  split
  · rw [List.mem_filter]
    exact ⟨ht, by simp [hc]⟩
  · exact ht


/-- The three tag laws of the merged tag list: it covers the device's spec
tags, it keeps every orchestrator tag outside the cached set, and it is
duplicate-free. -/
theorem mergedDiskSpec_tags_props (cache : TagCache) (device : BlockDevice)
    (tnode : List String) :
    (∀ t, t ∈ device.spec.tags →
      t ∈ sliceDedupe (respectedTags cache device.name tnode ++ device.spec.tags)) ∧
    (∀ t, t ∈ tnode → t ∉ getDiskTags cache device.name →
      t ∈ sliceDedupe (respectedTags cache device.name tnode ++ device.spec.tags)) ∧
    (sliceDedupe (respectedTags cache device.name tnode ++ device.spec.tags)).Nodup := by
  refine ⟨fun t ht => ?_, fun t ht hc => ?_, sliceDedupe_nodup _⟩
  · rw [mem_sliceDedupe]
    exact List.mem_append.mpr (Or.inr ht)
  · rw [mem_sliceDedupe]
    exact List.mem_append.mpr (Or.inl (mem_respectedTags cache device.name tnode t ht hc))

/-- C4: a provision update on a device whose node entry already exists with
non-nil tags leaves, in the orchestrator Spec.Disks (written or found equal),
an entry for the device whose tag list contains every device spec tag and
every pre-existing orchestrator tag outside TagCache.Get of the device name
(the empty set for an unknown name), with no duplicates. -/
theorem provision_tag_merge (env : ProvisionEnv) (cache : TagCache)
    (device : BlockDevice) (node : LonghornNode) (disk : DiskSpec)
    (tnode : List String)
    (h1 : fetchProvisionNode env = .ok node)
    (h2 : alistLookup node.disks device.name = some disk)
    (h3 : disk.tags = some tnode)
    (h4 : (provisionDeviceToNode env cache device).err = none) :
    ∃ entry ts,
      alistLookup (provisionDeviceToNode env cache device).finalDisks device.name
        = some entry ∧
      entry.tags = some ts ∧
      (∀ t, t ∈ device.spec.tags → t ∈ ts) ∧
      (∀ t, t ∈ tnode → t ∉ getDiskTags cache device.name → t ∈ ts) ∧
      ts.Nodup := by
  obtain ⟨hp1, hp2, hp3⟩ := mergedDiskSpec_tags_props cache device tnode
  revert h4
  unfold provisionDeviceToNode
  rw [h1]
  dsimp only
  rw [h2]
  dsimp only
  rw [h3]
  dsimp only
  by_cases hupd : (disk == mergedDiskSpec cache device tnode) = true
  · have hdisk : disk = mergedDiskSpec cache device tnode := by simpa using hupd
    rw [hupd]
    cases hcond : device.status.diskAddedToNode.statusTrue <;>
      · intro _
        refine ⟨disk, sliceDedupe
          (respectedTags cache device.name tnode ++ device.spec.tags),
          ?_, ?_, hp1, hp2, hp3⟩
        · simpa [hcond] using h2
        · rw [hdisk]; rfl
  · have hupd' : (disk == mergedDiskSpec cache device tnode) = false := by
      simpa using hupd
    rw [hupd']
    cases hnu : env.nodeUpdateResult with
    | some e => intro h4; simp at h4
    | none =>
      intro _
      refine ⟨mergedDiskSpec cache device tnode, sliceDedupe
        (respectedTags cache device.name tnode ++ device.spec.tags),
        ?_, rfl, hp1, hp2, hp3⟩
      exact alistLookup_insert_self node.disks device.name _

/-- A closed witness for the tag-merge theorem: the sample node keeps its
orchestrator-only tag zone-a while gaining the device tags ssd and fast. -/
theorem provision_tag_merge_witness :
    ∃ entry ts,
      alistLookup (provisionDeviceToNode envC4 cacheC4 devC4).finalDisks devC4.name
        = some entry ∧
      entry.tags = some ts ∧
      (∀ t, t ∈ devC4.spec.tags → t ∈ ts) ∧
      (∀ t, t ∈ ["ssd", "zone-a"] → t ∉ getDiskTags cacheC4 devC4.name → t ∈ ts) ∧
      ts.Nodup :=
  provision_tag_merge envC4 cacheC4 devC4 nodeC4 diskC4 ["ssd", "zone-a"]
    rfl (by decide) rfl (by decide)


/-- provisionDeviceToNode performs at most one orchestrator-node write. -/
theorem provisionDeviceToNode_nodeUpdates_le (env : ProvisionEnv)
    (cache : TagCache) (device : BlockDevice) :
    (provisionDeviceToNode env cache device).nodeUpdates ≤ 1 := by
  unfold provisionDeviceToNode
  cases fetchProvisionNode env with
  | fail e => simp
  | ok node =>
    dsimp only
    repeat' split
    all_goals simp

/-- unprovisionDeviceFromNode performs at most one orchestrator-node write. -/
theorem unprovisionDeviceFromNode_nodeUpdates_le (ctl : Ctl)
    (env : UnprovisionEnv) (device : BlockDevice) :
    (unprovisionDeviceFromNode ctl env device).nodeUpdates ≤ 1 := by
  unfold unprovisionDeviceFromNode
  cases env.nodeGet with
  | fail e => dsimp only; split <;> simp
  | ok node =>
    dsimp only
    repeat' split
    all_goals simp

/-- The provision/unprovision switch performs at most one orchestrator-node
write. -/
theorem provisionStage_nodeUpdates_le (ctl : Ctl) (env : ChangeEnv)
    (device : BlockDevice) :
    (provisionStage ctl env device).nodeUpdates ≤ 1 := by
  unfold provisionStage
  dsimp only
  split
  · split
    · cases hp : (provisionDeviceToNode env.provisionEnv env.cache device).err with
      | some e =>
        exact provisionDeviceToNode_nodeUpdates_le env.provisionEnv env.cache device
      | none =>
        exact provisionDeviceToNode_nodeUpdates_le env.provisionEnv env.cache device
    · simp
  · split
    · cases hp : (provisionDeviceToNode env.provisionEnv env.cache device).err with
      | some e =>
        exact provisionDeviceToNode_nodeUpdates_le env.provisionEnv env.cache device
      | none =>
        exact provisionDeviceToNode_nodeUpdates_le env.provisionEnv env.cache device
    · split
      · cases hu : (unprovisionDeviceFromNode ctl env.unprovisionEnv device).err with
        | some e =>
          exact unprovisionDeviceFromNode_nodeUpdates_le ctl env.unprovisionEnv device
        | none =>
          exact unprovisionDeviceFromNode_nodeUpdates_le ctl env.unprovisionEnv device
      · simp

/-- C7: one OnBlockDeviceChange invocation performs at most one
orchestrator-node write and at most one block-device write, whichever stage
runs and however the external calls turn out. -/
theorem on_change_at_most_one_write_each (ctl : Ctl) (env : ChangeEnv)
    (deviceOpt : Option BlockDevice) :
    (OnBlockDeviceChange ctl env deviceOpt).nodeUpdates ≤ 1 ∧
    (OnBlockDeviceChange ctl env deviceOpt).bdUpdates ≤ 1 := by
  unfold OnBlockDeviceChange
  cases deviceOpt with
  | none => simp
  | some device =>
    dsimp only
    repeat' split
    all_goals
      refine ⟨?_, ?_⟩ <;>
        first
          | exact provisionStage_nodeUpdates_le ctl env device
          | simp

end NDM
